import Mathlib

/-!
Shallow embedding of the functional Python pattern-matching engine
(`patternmatching/funcs.py`) and proofs about its behaviour.

Modelling conventions:

* Python objects relevant to the engine are deep-embedded in one inductive
  type `Obj`: plain values (integers, lists, tuples), `Name` records,
  `Like` records whose callable is a small deep-embedded predicate language
  (`PredCode`), and the pattern classes `Anyone`, `Pattern`, `Repeat`,
  `Group`, `Either`, `Exclude`.  Python type objects and strings-as-values
  are outside the modelled universe; the `types` case of the dispatcher is
  kept in its registration slot but its predicate never fires on modelled
  objects.
* Exceptions are values of `Err`; `Err.mismatch` models the engine's
  `Mismatch` control signal, the named errors model the members of
  `like_errors` plus `TypeError` from `len()`, and `Err.recursionError`
  models exhausting the interpreter's recursion budget (every recursive
  Python call is metered by a fuel argument; running out of fuel is
  Python's `RecursionError`).
* `Repeat.max` is `Option Nat`: `none` models `float('inf')`.
* The generator `visit` inside `pattern_action` is embedded in
  continuation-passing style: the consumer of the generator's yields is a
  function `k`; `VRes.found` models the consumer breaking out (the overall
  first success), `VRes.exhausted` models the generator being resumed /
  finishing normally, and `VRes.err` models a propagating exception.
  State (the binding environment) is threaded through yields exactly as
  the shared mutable `matcher.names` is in the source.
* `MapStack` stores its frames top-first (`maps.head` is Python's
  `_maps[-1]`); the `Bounder` match history stores its entries
  newest-first.
-/

/-- Python exceptions as seen by the engine.  `mismatch` is the engine's
own `Mismatch`; `recursionError` models hitting the recursion limit. -/
inductive Err where
  | mismatch
  | typeError
  | attributeError
  | lookupError
  | valueError
  | notImplementedError
  | recursionError
  | fatal
deriving DecidableEq, Repr

/-- The members of `like_errors` in the source: benign exceptions from a
user callable that `like_action` converts into `Mismatch`. -/
def like_errors (e : Err) : Bool :=
  match e with
  | .attributeError | .lookupError | .notImplementedError | .typeError | .valueError => true
  | _ => false

/-- Deep embedding of the user callables passed to `like(...)`.  Python
functions cannot live inside the object type, so the callables needed by
the claims are represented by this small code type. -/
inductive PredCode where
  | isOdd
  | raises (e : Err)
  | always (b : Bool)
deriving DecidableEq, Repr

/-- Python objects in the modelled universe: plain values, `Name` and
`Like` records, and the pattern classes of the source. -/
inductive Obj where
  | vint (n : Int)
  | vlist (xs : List Obj)
  | vtuple (xs : List Obj)
  | anyone
  | vname (s : String)
  | vlike (f : PredCode) (nm : Option String)
  | pat (items : List Obj)
  | rep (p : Obj) (mn : Nat) (mx : Option Nat) (greedy : Bool)
  | grp (p : Obj) (nm : Option String)
  | veither (options : List Obj)
  | vexclude (options : List Obj)

/-- One binding frame: an insertion-ordered name-to-value mapping, the
model of a Python dict. -/
abbrev Frame := List (String × Obj)

/-- Dict write: update an existing key in place, else append. -/
def frame_set : Frame → String → Obj → Frame
  | [], k, v => [(k, v)]
  | (k', v') :: rest, k, v =>
      if k' = k then (k', v) :: rest else (k', v') :: frame_set rest k v

/-- Dict lookup. -/
def frame_get : Frame → String → Option Obj
  | [], _ => none
  | (k', v') :: rest, k => if k' = k then some v' else frame_get rest k

/-- Dict `pop(key, default)`: the removed value (if any) and the remaining
frame. -/
def frame_pop : Frame → String → Option Obj × Frame
  | [], _ => (none, [])
  | (k', v') :: rest, k =>
      if k' = k then (some v', rest)
      else
        let r := frame_pop rest k
        (r.1, (k', v') :: r.2)

/-- The source's `MapStack`: a stack of dict frames.  `maps.head` is the
top frame (Python's `_maps[-1]`). -/
structure MapStack where
  maps : List Frame

/-- A fresh `MapStack()`: exactly one empty frame. -/
def MapStack.init : MapStack := ⟨[[]]⟩

/-- `MapStack.__setitem__`: write into the top frame.  It cannot fail. -/
def MapStack.setItem : MapStack → String → Obj → MapStack
  | ⟨[]⟩, _, _ => ⟨[]⟩
  | ⟨f :: rest⟩, k, v => ⟨frame_set f k v :: rest⟩

/-- Search a list of frames in order for a key. -/
def frames_get : List Frame → String → Option Obj
  | [], _ => none
  | f :: rest, k =>
      match frame_get f k with
      | some v => some v
      | none => frames_get rest k

/-- `MapStack.__getitem__`: search the frames top-down. -/
def MapStack.get? (s : MapStack) (k : String) : Option Obj :=
  frames_get s.maps k

/-- `MapStack.__contains__`: membership in any frame. -/
def MapStack.contains (s : MapStack) (k : String) : Bool :=
  s.maps.any (fun f => (frame_get f k).isSome)

/-- `MapStack.pop(key, default)`: pop from the top frame only. -/
def MapStack.popTop : MapStack → String → Option Obj × MapStack
  | ⟨[]⟩, _ => (none, ⟨[]⟩)
  | ⟨f :: rest⟩, k =>
      let r := frame_pop f k
      (r.1, ⟨r.2 :: rest⟩)

/-- `MapStack.copy()`: the effective mapping, upper frames winning.  (The
key order of the Python `dict(self)` is unspecified; this canonical order
agrees with it whenever the stack has a single frame, which is the only
situation in which the engine takes a copy.) -/
def MapStack.copy (s : MapStack) : Frame :=
  s.maps.reverse.foldl (fun acc f => f.foldl (fun a kv => frame_set a kv.1 kv.2) acc) []

/-- `MapStack.reset()`: drop all frames but the first and clear it. -/
def MapStack.reset (_ : MapStack) : MapStack := MapStack.init

/-- The state owned by a `Matcher`: the binding environment `names` and
the `Bounder` match history `bound` (newest entry first). -/
structure MatchState where
  names : MapStack
  bound : List Frame

/-- The state of a freshly constructed `Matcher()`. -/
def initState : MatchState := ⟨MapStack.init, []⟩

mutual

/-- Python `==` between modelled objects (first argument on the left).
`Details.__eq__` reads `that._details`, so comparing a pattern-class
object with anything that lacks `_details` raises `AttributeError`;
records (`Name`, `Like`) fall back to `NotImplemented` and compare
unequal to everything but their own kind; list/tuple comparison is
elementwise after a length check.  The fuel argument meters recursion. -/
def pyEq : Nat → Obj → Obj → Except Err Bool
  | 0, _, _ => .error .recursionError
  | fu + 1, a, b =>
      match a, b with
      | .vint n, .vint m => .ok (decide (n = m))
      | .vlist xs, .vlist ys => pyEqList fu xs ys
      | .vtuple xs, .vtuple ys => pyEqList fu xs ys
      | .vname s, .vname t => .ok (decide (s = t))
      | .vlike f nm, .vlike g nm' => .ok (decide (f = g) && decide (nm = nm'))
      | .vname _, .vlike _ _ => .ok false
      | .vlike _ _, .vname _ => .ok false
      | .vint _, .vlist _ | .vint _, .vtuple _ | .vint _, .vname _ | .vint _, .vlike _ _ =>
          .ok false
      | .vlist _, .vint _ | .vlist _, .vtuple _ | .vlist _, .vname _ | .vlist _, .vlike _ _ =>
          .ok false
      | .vtuple _, .vint _ | .vtuple _, .vlist _ | .vtuple _, .vname _ | .vtuple _, .vlike _ _ =>
          .ok false
      | .vname _, .vint _ | .vname _, .vlist _ | .vname _, .vtuple _ => .ok false
      | .vlike _ _, .vint _ | .vlike _ _, .vlist _ | .vlike _ _, .vtuple _ => .ok false
      | .anyone, .anyone => .ok true
      | .anyone, .pat items => pyEqList fu [] items
      | .pat items, .anyone => pyEqList fu items []
      | .pat items, .pat items' => pyEqList fu items items'
      | .rep p mn mx g, .rep p' mn' mx' g' =>
          match pyEq fu p p' with
          | .error e => .error e
          | .ok false => .ok false
          | .ok true => .ok (decide (mn = mn') && decide (mx = mx') && decide (g = g'))
      | .grp p nm, .grp p' nm' =>
          match pyEq fu p p' with
          | .error e => .error e
          | .ok false => .ok false
          | .ok true => .ok (decide (nm = nm'))
      | .veither os, .veither os' => pyEqList fu os os'
      | .veither os, .vexclude os' => pyEqList fu os os'
      | .vexclude os, .veither os' => pyEqList fu os os'
      | .vexclude os, .vexclude os' => pyEqList fu os os'
      | .anyone, _ | .pat _, _ | .rep _ _ _ _, _ | .grp _ _, _ | .veither _, _
      | .vexclude _, _ => .error .attributeError
      | _, .anyone | _, .pat _ | _, .rep _ _ _ _ | _, .grp _ _ | _, .veither _
      | _, .vexclude _ => .error .attributeError

/-- Elementwise Python `==` on sequences: unequal lengths compare `False`
without touching elements, otherwise stop at the first unequal element;
element comparisons may raise. -/
def pyEqList : Nat → List Obj → List Obj → Except Err Bool
  | 0, _, _ => .error .recursionError
  | _ + 1, [], [] => .ok true
  | _ + 1, [], _ :: _ => .ok false
  | _ + 1, _ :: _, [] => .ok false
  | fu + 1, x :: xs, y :: ys =>
      if xs.length = ys.length then
        match pyEq fu x y with
        | .error e => .error e
        | .ok false => .ok false
        | .ok true => pyEqList fu xs ys
      else .ok false

end

/-- Python `len()` on modelled objects.  `Pattern` measures its detail
tuple, every `PatternMixin` subclass has length 1, and non-sequences
raise `TypeError`. -/
def objLen : Obj → Except Err Nat
  | .vlist xs => .ok xs.length
  | .vtuple xs => .ok xs.length
  | .pat items => .ok items.length
  | .anyone | .rep _ _ _ _ | .grp _ _ | .veither _ | .vexclude _ => .ok 1
  | .vint _ | .vname _ | .vlike _ _ => .error .typeError

/-- Python `x[i]` on modelled objects.  A `PatternMixin` yields itself at
index 0 and `IndexError` otherwise; out-of-range sequence access is
`IndexError` (modelled by `lookupError`); records and integers are not
usable here. -/
def objItem : Obj → Nat → Except Err Obj
  | .vlist xs, i => match xs.get? i with | some x => .ok x | none => .error .lookupError
  | .vtuple xs, i => match xs.get? i with | some x => .ok x | none => .error .lookupError
  | .pat items, i => match items.get? i with | some x => .ok x | none => .error .lookupError
  | .anyone, i => if i = 0 then .ok .anyone else .error .lookupError
  | .rep p mn mx g, i => if i = 0 then .ok (.rep p mn mx g) else .error .lookupError
  | .grp p nm, i => if i = 0 then .ok (.grp p nm) else .error .lookupError
  | .veither os, i => if i = 0 then .ok (.veither os) else .error .lookupError
  | .vexclude os, i => if i = 0 then .ok (.vexclude os) else .error .lookupError
  | .vint _, _ | .vname _, _ | .vlike _ _, _ => .error .typeError

/-- Python `x[lo:hi]` for the sequence values the search slices (clamping
like Python slices).  Pattern-mixin `__getitem__` rejects slice objects
with `IndexError`; integers and records raise `TypeError`. -/
def objSlice : Obj → Nat → Nat → Except Err Obj
  | .vlist xs, lo, hi => .ok (.vlist ((xs.take hi).drop lo))
  | .vtuple xs, lo, hi => .ok (.vtuple ((xs.take hi).drop lo))
  | .pat items, lo, hi => .ok (.vtuple ((items.take hi).drop lo))
  | .anyone, _, _ | .rep _ _ _ _, _, _ | .grp _ _, _, _ | .veither _, _, _
  | .vexclude _, _, _ => .error .lookupError
  | .vint _, _, _ | .vname _, _, _ | .vlike _ _, _, _ => .error .typeError

/-- Python truthiness of modelled objects (used on the result of a `like`
callable). -/
def pyTruthy : Obj → Bool
  | .vint n => decide (n ≠ 0)
  | .vlist xs => !xs.isEmpty
  | .vtuple xs => !xs.isEmpty
  | .pat items => !items.isEmpty
  | _ => true

/-- Calling a modelled user predicate on a value. -/
def apply_pred : PredCode → Obj → Except Err Obj
  | .isOdd, .vint n => .ok (.vint (n % 2))
  | .isOdd, _ => .error .typeError
  | .raises e, _ => .error e
  | .always b, _ => .ok (.vint (if b then 1 else 0))

/-- `anyone_predicate`: the pattern is an `Anyone` instance. -/
def anyone_predicate : Obj → Bool
  | .anyone => true
  | _ => false

/-- `name_predicate`: the pattern is a `Name` instance. -/
def name_predicate : Obj → Bool
  | .vname _ => true
  | _ => false

/-- `like_predicate`: the pattern is a `Like` instance. -/
def like_predicate : Obj → Bool
  | .vlike _ _ => true
  | _ => false

/-- `name_store`: if `name` is already present anywhere in `matcher.names`
then compare the new value with the stored one (raising `Mismatch` on
inequality, propagating comparison errors), then write the value into the
top frame.  Mirrors the source exactly: the write happens even when the
values compare equal, and the bounds of the check are the whole visible
stack while the write touches only the top frame. -/
def name_store (fu : Nat) (st : MatchState) (name : String) (value : Obj) :
    MatchState × Except Err Unit :=
  if st.names.contains name then
    match st.names.get? name with
    | none => (st, .error .lookupError)
    | some stored =>
        match pyEq fu value stored with
        | .error e => (st, .error e)
        | .ok true => ({ st with names := st.names.setItem name value }, .ok ())
        | .ok false => (st, .error .mismatch)
  else ({ st with names := st.names.setItem name value }, .ok ())

/-- `name_action`: store the value under the name the pattern wraps. -/
def name_action (fu : Nat) (st : MatchState) (value pattern : Obj) :
    MatchState × Except Err Obj :=
  match pattern with
  | .vname s =>
      match name_store fu st s value with
      | (st', .ok _) => (st', .ok value)
      | (st', .error e) => (st', .error e)
  | _ => (st, .error .fatal)

/-- `like_action` for callable patterns: apply the callable, turn members
of `like_errors` and falsy results into `Mismatch`, let other errors
propagate, and store a truthy result under the pattern's name when one is
given.  (Text patterns are outside the modelled universe.) -/
def like_action (fu : Nat) (st : MatchState) (value pattern : Obj) :
    MatchState × Except Err Obj :=
  match pattern with
  | .vlike f nm =>
      match apply_pred f value with
      | .error e => if like_errors e then (st, .error .mismatch) else (st, .error e)
      | .ok result =>
          if !pyTruthy result then (st, .error .mismatch)
          else
            match nm with
            | none => (st, .ok result)
            | some name =>
                match name_store fu st name result with
                | (st', .ok _) => (st', .ok result)
                | (st', .error e) => (st', .error e)
  | _ => (st, .error .fatal)

/-- `literal_types` membership: of the modelled objects only integers are
literal scalars. -/
def literal_types_check : Obj → Bool
  | .vint _ => true
  | _ => false

/-- `literal_predicate`: both pattern and value are literal scalars. -/
def literal_predicate (value pattern : Obj) : Bool :=
  literal_types_check pattern && literal_types_check value

/-- `literal_action`: match on Python equality. -/
def literal_action (fu : Nat) (st : MatchState) (value pattern : Obj) :
    MatchState × Except Err Obj :=
  match pyEq fu value pattern with
  | .error e => (st, .error e)
  | .ok true => (st, .ok value)
  | .ok false => (st, .error .mismatch)

/-- `equality_predicate`: Python `value == pattern`, any exception
(including hitting the recursion limit) converted to `False`. -/
def equality_predicate (fu : Nat) (value pattern : Obj) : Bool :=
  match pyEq fu value pattern with
  | .ok b => b
  | .error _ => false

/-- `isinstance(value, type(pattern))` for the modelled classes (no
subclass relationships hold between distinct modelled classes). -/
def sameClass : Obj → Obj → Bool
  | .vint _, .vint _ => true
  | .vlist _, .vlist _ => true
  | .vtuple _, .vtuple _ => true
  | .vname _, .vname _ => true
  | .vlike _ _, .vlike _ _ => true
  | .anyone, .anyone => true
  | .pat _, .pat _ => true
  | .rep _ _ _ _, .rep _ _ _ _ => true
  | .grp _ _, .grp _ _ => true
  | .veither _, .veither _ => true
  | .vexclude _, .vexclude _ => true
  | _, _ => false

/-- `isinstance(x, Sequence)`: lists, tuples, and every `Details` subclass
(`Pattern` and the pattern mixins) are registered sequences; records and
integers are not. -/
def isSeqObj : Obj → Bool
  | .vlist _ | .vtuple _ | .pat _ | .anyone | .rep _ _ _ _ | .grp _ _
  | .veither _ | .vexclude _ => true
  | .vint _ | .vname _ | .vlike _ _ => false

/-- `sequence_predicate`: value is an instance of the pattern's type, the
pattern is a `Sequence`, and the lengths agree. -/
def sequence_predicate (value pattern : Obj) : Bool :=
  sameClass value pattern && isSeqObj pattern &&
    (match objLen value, objLen pattern with
     | .ok a, .ok b => decide (a = b)
     | _, _ => false)

/-- Iteration order of a modelled sequence object (used by the zip in
`sequence_action`). -/
def toElems : Obj → List Obj
  | .vlist xs => xs
  | .vtuple xs => xs
  | .pat items => items
  | .anyone => [.anyone]
  | .rep p mn mx g => [.rep p mn mx g]
  | .grp p nm => [.grp p nm]
  | .veither os => [.veither os]
  | .vexclude os => [.vexclude os]
  | .vint n => [.vint n]
  | .vname s => [.vname s]
  | .vlike f nm => [.vlike f nm]

/-- `pattern_predicate`: the pattern is a `Pattern` or `PatternMixin`
instance. -/
def pattern_predicate : Obj → Bool
  | .anyone | .pat _ | .rep _ _ _ _ | .grp _ _ | .veither _ | .vexclude _ => true
  | _ => false

/-- A dispatch rule: `Case(name, predicate, action)` from the source. -/
structure Case where
  name : String
  predicate : MatchState → Obj → Obj → Bool
  action : MatchState → Obj → Obj → MatchState × Except Err Obj

/-- The loop body of `Matcher.visit`: try the cases in order, run the
action of the first case whose predicate accepts, raise `Mismatch` when
none does. -/
def dispatch : List Case → MatchState → Obj → Obj → MatchState × Except Err Obj
  | [], st, _, _ => (st, .error .mismatch)
  | c :: cs, st, value, pattern =>
      if c.predicate st value pattern then c.action st value pattern
      else dispatch cs st value pattern

/-- `count > item.max` with `max` possibly `float('inf')`. -/
def count_gt_max (count : Nat) : Option Nat → Bool
  | none => false
  | some m => decide (m < count)

/-- Result of running (a slice of) the lazy generator `visit` inside
`pattern_action` against a consumer `k`: the consumer stopped at a yield
(`found`), the generator was exhausted (`exhausted`), or an exception
propagated (`err`); each carries the binding state at that moment. -/
inductive VRes where
  | found (stop : Nat) (st : MatchState)
  | exhausted (st : MatchState)
  | err (e : Err) (st : MatchState)

mutual

/-- `Matcher.visit`: run the registered cases in order (the fixed
`base_cases` registration: anyone, names, likes, types, literals,
equality, sequences, patterns).  The `types` predicate never fires
because type objects are outside the modelled universe. -/
def Matcher_visit : Nat → MatchState → Obj → Obj → MatchState × Except Err Obj
  | 0, st, _, _ => (st, .error .recursionError)
  | fu + 1, st, value, pattern =>
      dispatch [
        ⟨"anyone", fun _ _ p => anyone_predicate p, fun s v _ => (s, .ok v)⟩,
        ⟨"names", fun _ _ p => name_predicate p, name_action fu⟩,
        ⟨"likes", fun _ _ p => like_predicate p, like_action fu⟩,
        ⟨"types", fun _ _ _ => false, fun s _ _ => (s, .error .fatal)⟩,
        ⟨"literals", fun _ v p => literal_predicate v p, literal_action fu⟩,
        ⟨"equality", fun _ v p => equality_predicate fu v p, fun s v _ => (s, .ok v)⟩,
        ⟨"sequences", fun _ v p => sequence_predicate v p, sequence_action fu⟩,
        ⟨"patterns", fun _ _ p => pattern_predicate p, pattern_action fu⟩
      ] st value pattern

termination_by structural fu => fu

/-- `sequence_action`: dispatch the zipped items pairwise and return the
tuple of the per-item results. -/
def sequence_action : Nat → MatchState → Obj → Obj → MatchState × Except Err Obj
  | 0, st, _, _ => (st, .error .recursionError)
  | fu + 1, st, value, pattern =>
      match sequence_zip_visit fu st (toElems value) (toElems pattern) with
      | (st', .ok results) => (st', .ok (.vtuple results))
      | (st', .error e) => (st', .error e)

termination_by structural fu => fu

/-- The `zip` loop inside `sequence_action` (stops at the shorter list,
propagating the first failure). -/
def sequence_zip_visit : Nat → MatchState → List Obj → List Obj →
    MatchState × Except Err (List Obj)
  | 0, st, _, _ => (st, .error .recursionError)
  | _ + 1, st, [], _ => (st, .ok [])
  | _ + 1, st, _ :: _, [] => (st, .ok [])
  | fu + 1, st, v :: vs, p :: ps =>
      match Matcher_visit fu st v p with
      | (st', .ok r) =>
          match sequence_zip_visit fu st' vs ps with
          | (st'', .ok rs) => (st'', .ok (r :: rs))
          | (st'', .error e) => (st'', .error e)
      | (st', .error e) => (st', .error e)

termination_by structural fu => fu

/-- `pattern_action`: take the first end offset the backtracking search
yields and return that prefix of the value; raise `Mismatch` when the
search is exhausted.  `len(sequence)` is taken up front, so a
non-sequence value raises `TypeError` here. -/
def pattern_action : Nat → MatchState → Obj → Obj → MatchState × Except Err Obj
  | 0, st, _, _ => (st, .error .recursionError)
  | fu + 1, st, value, pattern =>
      match objLen value with
      | .error e => (st, .error e)
      | .ok len_sequence =>
          match pattern_visit fu value len_sequence pattern 0 0 0 st
              (fun stop st' => .found stop st') with
          | .found stop st' =>
              match objSlice value 0 stop with
              | .ok r => (st', .ok r)
              | .error e => (st', .error e)
          | .exhausted st' => (st', .error .mismatch)
          | .err e st' => (st', .error e)

termination_by structural fu => fu

/-- The generator `visit(pattern, index, offset, count)` local to
`pattern_action`, in continuation-passing style against the consumer `k`.
The source's bottom-of-loop advance (`index += 1; offset += 1` followed
by the end-of-pattern check) is the tail call with `index + 1` and
`offset + 1`, whose entry check is that same end-of-pattern check. -/
def pattern_visit : Nat → Obj → Nat → Obj → Nat → Nat → Nat → MatchState →
    (Nat → MatchState → VRes) → VRes
  | 0, _, _, _, _, _, _, st, _ => .err .recursionError st
  | fu + 1, value, len_sequence, pattern, index, offset, count, st, k =>
      match objLen pattern with
      | .error e => .err e st
      | .ok len_pattern =>
          if index = len_pattern then k offset st
          else
            match objItem pattern index with
            | .error e => .err e st
            | .ok item =>
                match item with
                | .rep p mn mx greedy =>
                    if count_gt_max count mx then .exhausted st
                    else if greedy then
                      let exit_branch := fun (st1 : MatchState) =>
                        if mn ≤ count then
                          pattern_visit fu value len_sequence pattern (index + 1) offset 0 st1 k
                        else .exhausted st1
                      if offset < len_sequence then
                        match pattern_visit fu value len_sequence p 0 offset count st
                            (fun e st1 =>
                              pattern_visit fu value len_sequence pattern index e (count + 1) st1 k) with
                        | .found stop st1 => .found stop st1
                        | .err e st1 => .err e st1
                        | .exhausted st1 => exit_branch st1
                      else exit_branch st
                    else
                      let consume_branch := fun (st1 : MatchState) =>
                        if offset < len_sequence then
                          pattern_visit fu value len_sequence p 0 offset count st1
                            (fun e st2 =>
                              pattern_visit fu value len_sequence pattern index e (count + 1) st2 k)
                        else .exhausted st1
                      if mn ≤ count then
                        match pattern_visit fu value len_sequence pattern (index + 1) offset 0 st k with
                        | .found stop st1 => .found stop st1
                        | .err e st1 => .err e st1
                        | .exhausted st1 => consume_branch st1
                      else consume_branch st
                | .grp p nm =>
                    pattern_visit fu value len_sequence p 0 offset 0 st
                      (fun e st1 =>
                        match nm with
                        | none =>
                            pattern_visit fu value len_sequence pattern (index + 1) e 0 st1 k
                        | some name =>
                            let popped := st1.names.popTop name
                            match objSlice value offset e with
                            | .error er => .err er { st1 with names := popped.2 }
                            | .ok slice =>
                                let st2 := { st1 with names := popped.2.setItem name slice }
                                match pattern_visit fu value len_sequence pattern (index + 1) e 0 st2 k with
                                | .found stop st3 => .found stop st3
                                | .err er st3 => .err er st3
                                | .exhausted st3 =>
                                    match popped.1 with
                                    | some prev =>
                                        .exhausted { st3 with names := st3.names.setItem name prev }
                                    | none => .exhausted st3)
                | .veither options =>
                    either_options fu value len_sequence pattern index offset options st k
                | .vexclude options =>
                    exclude_options fu value len_sequence pattern index offset count options st k
                | _ =>
                    if len_sequence ≤ offset then .exhausted st
                    else
                      match objItem value offset with
                      | .error e => .err e st
                      | .ok elem =>
                          match Matcher_visit fu st elem item with
                          | (st1, .ok _) =>
                              pattern_visit fu value len_sequence pattern (index + 1) (offset + 1)
                                count st1 k
                          | (st1, .error .mismatch) => .exhausted st1
                          | (st1, .error e) => .err e st1

termination_by structural fu => fu

/-- The `Either` branch: try each option in order from the current
offset; every end an option yields continues the outer search past the
alternation; state threads across options. -/
def either_options : Nat → Obj → Nat → Obj → Nat → Nat → List Obj → MatchState →
    (Nat → MatchState → VRes) → VRes
  | 0, _, _, _, _, _, _, st, _ => .err .recursionError st
  | _ + 1, _, _, _, _, _, [], st, _ => .exhausted st
  | fu + 1, value, len_sequence, pattern, index, offset, option :: rest, st, k =>
      match pattern_visit fu value len_sequence option 0 offset 0 st
          (fun e st1 => pattern_visit fu value len_sequence pattern (index + 1) e 0 st1 k) with
      | .found stop st1 => .found stop st1
      | .err e st1 => .err e st1
      | .exhausted st1 => either_options fu value len_sequence pattern index offset rest st1 k

termination_by structural fu => fu

/-- The `Exclude` branch: if any option yields an end at the current
offset the whole generator returns (no result); otherwise fall through to
the shared advance — `index` and `offset` both step by one with no bounds
check on `offset`. -/
def exclude_options : Nat → Obj → Nat → Obj → Nat → Nat → Nat → List Obj → MatchState →
    (Nat → MatchState → VRes) → VRes
  | 0, _, _, _, _, _, _, _, st, _ => .err .recursionError st
  | fu + 1, value, len_sequence, pattern, index, offset, count, [], st, k =>
      pattern_visit fu value len_sequence pattern (index + 1) (offset + 1) count st k
  | fu + 1, value, len_sequence, pattern, index, offset, count, option :: rest, st, k =>
      match pattern_visit fu value len_sequence option 0 offset 0 st
          (fun e st1 => .found e st1) with
      | .found _ st1 => .exhausted st1
      | .err e st1 => .err e st1
      | .exhausted st1 =>
          exclude_options fu value len_sequence pattern index offset count rest st1 k

termination_by structural fu => fu
end

/-- The fixed rule registration order of `base_cases` in the source, with
the actions closed over a recursion budget. -/
def base_cases (fu : Nat) : List Case := [
  ⟨"anyone", fun _ _ p => anyone_predicate p, fun s v _ => (s, .ok v)⟩,
  ⟨"names", fun _ _ p => name_predicate p, name_action fu⟩,
  ⟨"likes", fun _ _ p => like_predicate p, like_action fu⟩,
  ⟨"types", fun _ _ _ => false, fun s _ _ => (s, .error .fatal)⟩,
  ⟨"literals", fun _ v p => literal_predicate v p, literal_action fu⟩,
  ⟨"equality", fun _ v p => equality_predicate fu v p, fun s v _ => (s, .ok v)⟩,
  ⟨"sequences", fun _ v p => sequence_predicate v p, sequence_action fu⟩,
  ⟨"patterns", fun _ _ p => pattern_predicate p, pattern_action fu⟩
]

/-- `Matcher.match`: run `visit`; `Mismatch` means `False`; success
pushes a copy of the bindings onto the `Bounder` history and means
`True`; any other exception propagates.  The `finally` clause resets the
binding environment on every exit path. -/
def Matcher_match (fu : Nat) (st : MatchState) (value pattern : Obj) :
    MatchState × Except Err Bool :=
  match Matcher_visit fu st value pattern with
  | (st', .ok _) =>
      ({ names := st'.names.reset, bound := st'.names.copy :: st'.bound }, .ok true)
  | (st', .error .mismatch) => ({ st' with names := st'.names.reset }, .ok false)
  | (st', .error e) => ({ st' with names := st'.names.reset }, .error e)

/-- Structural patterns in the claims' sense: `Pattern` instances and the
proper combinator mixins.  (`Anyone` is also a `PatternMixin`, but it is
the wildcard leaf and is taken by the first dispatch rule, so it is not a
structural pattern here.) -/
def isStructural : Obj → Bool
  | .pat _ | .rep _ _ _ _ | .grp _ _ | .veither _ | .vexclude _ => true
  | _ => false

/-- Characterization of a run of the `Exclude` option loop in which no
option matches: `ExcludeNoMatch value ls offset fu g opts st st1` holds
when, starting with recursion budget `fu` and bindings `st`, each option
of `opts` in order fails to match the value at `offset` (its sub-search
is exhausted without yielding an end offset), leaving budget `g` and
bindings `st1` for what follows the loop.  The binding state is exactly
what the options' own sub-searches left behind: the loop itself writes
nothing. -/
inductive ExcludeNoMatch (value : Obj) (ls offset : Nat) :
    Nat → Nat → List Obj → MatchState → MatchState → Prop where
  | nil : ∀ fu st, ExcludeNoMatch value ls offset fu fu [] st st
  | cons : ∀ fu g o rest st st1 st2,
      pattern_visit fu value ls o 0 offset 0 st (fun e s => VRes.found e s) = .exhausted st1 →
      ExcludeNoMatch value ls offset fu g rest st1 st2 →
      ExcludeNoMatch value ls offset (fu + 1) g (o :: rest) st st2

/-- Sanity check tying the two presentations of the dispatcher together:
`Matcher.visit` is `dispatch` over the registered `base_cases`. -/
theorem Matcher_visit_eq_dispatch (fu : Nat) (st : MatchState) (value pattern : Obj) :
    Matcher_visit (fu + 1) st value pattern = dispatch (base_cases fu) st value pattern := rfl

/-- `__contains__` agrees with the top-down search of `__getitem__`: a
name is visible in the stack iff `get?` finds it. -/
theorem mapstack_contains_eq (s : MapStack) (k : String) :
    s.contains k = (s.get? k).isSome := by
  rcases s with ⟨maps⟩
  show maps.any (fun f => (frame_get f k).isSome) = (frames_get maps k).isSome
  induction maps with
  | nil => rfl
  | cons f rest ih =>
      rw [List.any_cons]
      cases h : frame_get f k with
      | some v => simp [frames_get, h]
      | none => simp [frames_get, h, ih]

/-- C2: whatever the value, the pattern, and the outcome — success,
`Mismatch`, a propagating error from a user predicate, or exhaustion of
the recursion budget — `Matcher.match` returns with the binding
environment reset to exactly one frame, which is empty: the
`finally: names.reset()` clause runs on every exit path. -/
theorem C2_match_always_resets (fu : Nat) (st : MatchState) (value pattern : Obj) :
    ((Matcher_match fu st value pattern).1).names.maps = [[]] := by
  rcases h : Matcher_visit fu st value pattern with ⟨st', r⟩
  unfold Matcher_match
  rw [h]
  rcases r with e | v
  · cases e <;> rfl
  · rfl

/-- C1: the code violates the claim.  Matching `[1, 2]` against
`Either([Name('x'), 3], [Name('y'), 2])` succeeds through the second
option only, yet the committed Match History entry still contains
`x = 1`, bound during the abandoned first option (the search never
pushes or rolls back binding frames).  Moreover the leaked binding can
decide a later branch: `Either([Name('x'), 5], [anyone, Name('x')])`
against `[1, 2]` fails, because the abandoned first option left `x = 1`
and the second option then tries to re-bind `x` to `2`. -/
theorem C1_abandoned_binding_visible :
    Matcher_match 50 initState (.vlist [.vint 1, .vint 2])
      (.veither [.vlist [.vname "x", .vint 3], .vlist [.vname "y", .vint 2]]) =
      (⟨⟨[[]]⟩, [[("x", .vint 1), ("y", .vint 1)]]⟩, .ok true) ∧
    (Matcher_match 50 initState (.vlist [.vint 1, .vint 2])
      (.veither [.vlist [.vname "x", .vint 5], .vlist [.anyone, .vname "x"]])).2 = .ok false :=
  ⟨rfl, rfl⟩

/-- C3 (counterexample): the binding environment's set operation
(`MapStack.__setitem__`) does not fail when the name is already visible
with an unequal value — it silently overwrites.  The engine exercises
such an unchecked write: two groups capturing the same name against
`[1, 2]` succeed with the second (unequal) capture winning, because the
`Group` branch writes bindings raw instead of going through
`name_store`. -/
theorem C3_setitem_never_fails :
    MapStack.setItem ⟨[[("x", .vint 1)]]⟩ "x" (.vint 2) = ⟨[[("x", .vint 2)]]⟩ ∧
    Matcher_match 50 initState (.vlist [.vint 1, .vint 2])
      (.pat [.grp .anyone (some "v"), .grp .anyone (some "v")]) =
      (⟨⟨[[]]⟩, [[("v", .vlist [.vint 2])]]⟩, .ok true) :=
  ⟨rfl, rfl⟩

/-- C3 (amended): the unequal-value check lives in `name_store`, the
store wrapper used by the named-capture and predicate rules, not in the
raw set operation: `name_store` fails with `Mismatch` exactly when the
name is visible with an unequal value, leaves the environment unchanged
in that case, and otherwise writes to the top frame (also on an equal
re-bind). -/
theorem C3_name_store_checked (fu : Nat) (st : MatchState) (name : String) (v w : Obj) :
    (st.names.get? name = some w → pyEq fu v w = .ok false →
        name_store fu st name v = (st, .error .mismatch)) ∧
    (st.names.get? name = some w → pyEq fu v w = .ok true →
        name_store fu st name v =
          ({ st with names := st.names.setItem name v }, .ok ())) ∧
    (st.names.get? name = none →
        name_store fu st name v =
          ({ st with names := st.names.setItem name v }, .ok ())) := by
  refine ⟨fun hg he => ?_, fun hg he => ?_, fun hg => ?_⟩
  · unfold name_store
    rw [mapstack_contains_eq, hg]
    simp [hg, he]
  · unfold name_store
    rw [mapstack_contains_eq, hg]
    simp [hg, he]
  · unfold name_store
    rw [mapstack_contains_eq, hg]
    simp

/-- C3 (amended), witnessed at a concrete input: with `x` visible as `1`,
storing `2` under `x` through `name_store` fails with `Mismatch`. -/
theorem C3_name_store_checked_witness :
    (⟨⟨[[("x", Obj.vint 1)]]⟩, []⟩ : MatchState).names.get? "x" = some (.vint 1) ∧
    pyEq 5 (.vint 2) (.vint 1) = .ok false ∧
    name_store 5 ⟨⟨[[("x", .vint 1)]]⟩, []⟩ "x" (.vint 2) =
      (⟨⟨[[("x", .vint 1)]]⟩, []⟩, .error .mismatch) :=
  ⟨rfl, rfl, (C3_name_store_checked 5 ⟨⟨[[("x", .vint 1)]]⟩, []⟩ "x" (.vint 2) (.vint 1)).1 rfl rfl⟩

/-- C4 (counterexample): a `Negation` can succeed with no sequence
position left to consume.  Matching the empty sequence against
`exclude(5)` succeeds — the advance after the option loop performs no
bounds check on `offset`, so the claim's requirement that `offset` be
strictly less than the value's length is not enforced by the code. -/
theorem C4_exclude_out_of_bounds_success :
    Matcher_match 50 initState (.vlist []) (.vexclude [.vtuple [.vint 5]]) =
      (⟨⟨[[]]⟩, [[]]⟩, .ok true) := rfl

/-- Options whose sub-searches all fail are skipped in order: a run of
the `Exclude` loop over a failing group of options reduces, for any
trailing options, to the loop over the trailer, in the state the failing
sub-searches left behind. -/
theorem exclude_options_skips_failing_options {value : Obj} {ls offset : Nat} :
    ∀ {fu g : Nat} {opts1 : List Obj} {st st1 : MatchState},
      ExcludeNoMatch value ls offset fu g opts1 st st1 →
      ∀ (tail : List Obj) (pattern : Obj) (index count : Nat) (k : Nat → MatchState → VRes),
        exclude_options fu value ls pattern index offset count (opts1 ++ tail) st k =
          exclude_options g value ls pattern index offset count tail st1 k := by
  intro fu g opts1 st st1 h
  induction h with
  | nil fu2 st2 => intro tail pattern index count k; rfl
  | cons fu2 g2 o rest st2 st3 st4 hsub hrest ih =>
      intro tail pattern index count k
      have step : exclude_options (fu2 + 1) value ls pattern index offset count
          ((o :: rest) ++ tail) st2 k =
          (match pattern_visit fu2 value ls o 0 offset 0 st2 (fun e s => VRes.found e s) with
           | .found _ s1 => VRes.exhausted s1
           | .err e s1 => VRes.err e s1
           | .exhausted s1 =>
               exclude_options fu2 value ls pattern index offset count (rest ++ tail) s1 k) := rfl
      rw [step, hsub]
      exact ih tail pattern index count k

/-- C4 (amended): for every value, every length, every offset (in
bounds or not), every pattern, index, count, consumer and option list:
after any group of options that fail to match at the offset, the first
option whose sub-search yields an end makes the whole negation
alignment fail immediately — the generator returns with no yield, the
remaining options and the consumer are never consulted; and when every
option fails to match at the offset, the search continues having
consumed exactly one sequence position (`index` and `offset` each
advance by one) with no bounds check on `offset` — the position need
not exist — and with the binding state passed through exactly as the
option sub-searches left it (the branch binds nothing itself).  The
concrete families at the end tie this to the top-level match:
`exclude(5)` rejects any sequence headed by `5`, accepts any sequence
headed by `4` consuming one position with an empty binding snapshot, and
accepts the empty sequence, where no position exists to consume. -/
theorem C4_exclude_negative_lookahead :
    (∀ (value : Obj) (ls offset fu g : Nat) (opts1 : List Obj) (o : Obj) (rest : List Obj)
       (st st1 st2 : MatchState) (e : Nat) (pattern : Obj) (index count : Nat)
       (k : Nat → MatchState → VRes),
       ExcludeNoMatch value ls offset fu (g + 1) opts1 st st1 →
       pattern_visit g value ls o 0 offset 0 st1 (fun e1 s1 => VRes.found e1 s1) =
         .found e st2 →
       exclude_options fu value ls pattern index offset count (opts1 ++ o :: rest) st k =
         .exhausted st2) ∧
    (∀ (value : Obj) (ls offset fu g : Nat) (opts : List Obj) (st st1 : MatchState)
       (pattern : Obj) (index count : Nat) (k : Nat → MatchState → VRes),
       ExcludeNoMatch value ls offset fu (g + 1) opts st st1 →
       exclude_options fu value ls pattern index offset count opts st k =
         pattern_visit g value ls pattern (index + 1) (offset + 1) count st1 k) ∧
    (∀ rest : List Obj,
       Matcher_match 50 initState (.vlist (.vint 5 :: rest)) (.vexclude [.vtuple [.vint 5]]) =
         (⟨⟨[[]]⟩, []⟩, .ok false)) ∧
    (∀ rest : List Obj,
       Matcher_match 50 initState (.vlist (.vint 4 :: rest)) (.vexclude [.vtuple [.vint 5]]) =
         (⟨⟨[[]]⟩, [[]]⟩, .ok true)) ∧
    Matcher_match 50 initState (.vlist []) (.vexclude [.vtuple [.vint 5]]) =
      (⟨⟨[[]]⟩, [[]]⟩, .ok true) := by
  refine ⟨?_, ?_, fun _ => rfl, fun _ => rfl, rfl⟩
  · intro value ls offset fu g opts1 o rest st st1 st2 e pattern index count k h hfound
    rw [exclude_options_skips_failing_options h (o :: rest) pattern index count k]
    have step : exclude_options (g + 1) value ls pattern index offset count (o :: rest) st1 k =
        (match pattern_visit g value ls o 0 offset 0 st1 (fun e1 s1 => VRes.found e1 s1) with
         | .found _ s1 => VRes.exhausted s1
         | .err e1 s1 => VRes.err e1 s1
         | .exhausted s1 =>
             exclude_options g value ls pattern index offset count rest s1 k) := rfl
    rw [step, hfound]
  · intro value ls offset fu g opts st st1 pattern index count k h
    rw [← List.append_nil opts,
        exclude_options_skips_failing_options h [] pattern index count k]
    rfl

/-- C4 (amended), witnessed at concrete inputs.  Against `[7, 5]` at
offset 1 — not the start of the value — the option `(9,)` fails and the
option `(5,)` then matches, so the negation with options
`((9,), (5,), (7,))` aborts immediately, without consulting `(7,)` or
the consumer.  Against the empty sequence at offset 0 — at the end of
the value — the single option `(5,)` fails to match, and the loop falls
through to the advance: one position is consumed although none exists. -/
theorem C4_exclude_negative_lookahead_witness :
    (pattern_visit 10 (.vlist [.vint 7, .vint 5]) 2 (.vtuple [.vint 9]) 0 1 0 initState
        (fun e s => VRes.found e s) = .exhausted initState) ∧
    (pattern_visit 9 (.vlist [.vint 7, .vint 5]) 2 (.vtuple [.vint 5]) 0 1 0 initState
        (fun e1 s1 => VRes.found e1 s1) = .found 2 initState) ∧
    exclude_options 11 (.vlist [.vint 7, .vint 5]) 2 (.vexclude []) 0 1 0
        ([.vtuple [.vint 9]] ++ .vtuple [.vint 5] :: [.vtuple [.vint 7]]) initState
        (fun e s => VRes.found e s) = .exhausted initState ∧
    (pattern_visit 5 (.vlist []) 0 (.vtuple [.vint 5]) 0 0 0 initState
        (fun e s => VRes.found e s) = .exhausted initState) ∧
    exclude_options 6 (.vlist []) 0 (.vexclude [.vtuple [.vint 5]]) 0 0 0 [.vtuple [.vint 5]]
        initState (fun e s => VRes.found e s) =
      pattern_visit 4 (.vlist []) 0 (.vexclude [.vtuple [.vint 5]]) 1 1 0 initState
        (fun e s => VRes.found e s) :=
  ⟨rfl, rfl,
   C4_exclude_negative_lookahead.1 (.vlist [.vint 7, .vint 5]) 2 1 11 9 [.vtuple [.vint 9]]
     (.vtuple [.vint 5]) [.vtuple [.vint 7]] initState initState initState 2 (.vexclude []) 0 0
     (fun e s => VRes.found e s)
     (ExcludeNoMatch.cons 10 10 (.vtuple [.vint 9]) [] initState initState initState rfl
       (ExcludeNoMatch.nil 10 initState)) rfl,
   rfl,
   C4_exclude_negative_lookahead.2.1 (.vlist []) 0 0 6 4 [.vtuple [.vint 5]] initState initState
     (.vexclude [.vtuple [.vint 5]]) 0 0 (fun e s => VRes.found e s)
     (ExcludeNoMatch.cons 5 5 (.vtuple [.vint 5]) [] initState initState initState rfl
       (ExcludeNoMatch.nil 5 initState))⟩

/-- Running the search on a `SequencePattern` whose items are exhausted
immediately yields the current offset to the consumer: the sub-search of
an empty subpattern consumes nothing and succeeds at once. -/
theorem pattern_visit_empty_tuple (fu : Nat) (value : Obj) (ls offset count : Nat)
    (st : MatchState) (k : Nat → MatchState → VRes) :
    pattern_visit (fu + 1) value ls (.vtuple []) 0 offset count st k = k offset st := by
  conv_lhs => rw [pattern_visit]
  rfl

/-- The divergence at the heart of C5: with a nonempty value, an
unbounded greedy quantifier over an empty subpattern re-enters the
quantifier at the same offset with `count + 1`, and `count > max` never
fires because `max` is infinite — every recursion budget is exhausted,
whatever the current count, state, or consumer. -/
theorem pattern_visit_zero_width_diverges :
    ∀ (fu c : Nat) (st : MatchState) (k : Nat → MatchState → VRes),
      pattern_visit fu (.vlist [.vint 1]) 1 (.rep (.vtuple []) 0 none true) 0 0 c st k =
        .err .recursionError st := by
  intro fu
  induction fu with
  | zero => intro c st k; rfl
  | succ m ih =>
      intro c st k
      cases m with
      | zero => rfl
      | succ m' =>
          conv_lhs => rw [pattern_visit]
          change (match pattern_visit (m' + 1) (.vlist [.vint 1]) 1 (.vtuple []) 0 0 c st
              (fun e st1 =>
                pattern_visit (m' + 1) (.vlist [.vint 1]) 1 (.rep (.vtuple []) 0 none true)
                  0 e (c + 1) st1 k) with
            | .found stop st1 => VRes.found stop st1
            | .err e st1 => VRes.err e st1
            | .exhausted st1 =>
                if 0 ≤ c then
                  pattern_visit (m' + 1) (.vlist [.vint 1]) 1 (.rep (.vtuple []) 0 none true)
                    (0 + 1) 0 0 st1 k
                else VRes.exhausted st1) = VRes.err .recursionError st
          rw [pattern_visit_empty_tuple m']
          rw [ih (c + 1) st k]

/-- C5: the claim fails on the code.  Matching `[1]` against `Repeat()`
— the library's own default quantifier object, whose subpattern is the
empty tuple, with `min = 0` and `max = inf` — never terminates: the
production of candidate end offsets is not a finite sequence, and every
recursion budget ends in `RecursionError`. -/
theorem C5_zero_width_unbounded_quantifier_diverges (fu : Nat) :
    (Matcher_match fu initState (.vlist [.vint 1]) (.rep (.vtuple []) 0 none true)).2 =
      .error .recursionError := by
  match fu with
  | 0 => rfl
  | 1 => rfl
  | n + 2 =>
      have h2 : Matcher_visit (n + 2) initState (.vlist [.vint 1])
          (.rep (.vtuple []) 0 none true) = (initState, .error .recursionError) := by
        conv_lhs => rw [Matcher_visit]
        change (match pattern_visit n (.vlist [.vint 1]) 1 (.rep (.vtuple []) 0 none true) 0 0 0
              initState (fun stop st' => VRes.found stop st') with
          | .found stop st' =>
              (match objSlice (.vlist [.vint 1]) 0 stop with
               | .ok r => (st', Except.ok r)
               | .error e => (st', Except.error e))
          | .exhausted st' => (st', Except.error Err.mismatch)
          | .err e st' => (st', Except.error e)) = (initState, Except.error Err.recursionError)
        rw [pattern_visit_zero_width_diverges n 0 initState _]
      unfold Matcher_match
      rw [h2]

/-- C6: the dispatcher tries the registered rules strictly in
registration order.  If no rule's predicate accepts the pair, dispatch
fails with `Mismatch`; otherwise the first rule whose predicate accepts
has its action invoked, the dispatch result is exactly that action's
result (so a failing winning action makes the dispatch fail), and the
rules after the first accepting one are never consulted — the result
does not depend on them. -/
theorem C6_dispatch_first_accepting_rule :
    (∀ (cases : List Case) (st : MatchState) (value pattern : Obj),
       (∀ c ∈ cases, c.predicate st value pattern = false) →
       dispatch cases st value pattern = (st, .error .mismatch)) ∧
    (∀ (cs1 cs2 : List Case) (c : Case) (st : MatchState) (value pattern : Obj),
       (∀ c' ∈ cs1, c'.predicate st value pattern = false) →
       c.predicate st value pattern = true →
       dispatch (cs1 ++ c :: cs2) st value pattern = c.action st value pattern) := by
  constructor
  · intro cases st value pattern h
    induction cases with
    | nil => rfl
    | cons a as ih =>
        have ha := h a (List.mem_cons_self a as)
        simp only [dispatch, ha, Bool.false_eq_true, if_false]
        exact ih (fun c hc => h c (List.mem_cons_of_mem a hc))
  · intro cs1 cs2 c st value pattern h hc
    induction cs1 with
    | nil => simp only [List.nil_append, dispatch, hc, if_true]
    | cons a as ih =>
        have ha := h a (List.mem_cons_self a as)
        simp only [List.cons_append, dispatch, ha, Bool.false_eq_true, if_false]
        exact ih (fun c' hc' => h c' (List.mem_cons_of_mem a hc'))

/-- C6, witnessed at concrete registries: a rejecting rule ahead of an
accepting one is skipped, the accepting rule's action decides the
result whatever comes after it, and a registry of rejecting rules alone
fails with `Mismatch`. -/
theorem C6_dispatch_first_accepting_rule_witness :
    ((∀ c ∈ [Case.mk "reject" (fun _ _ _ => false) (fun s v _ => (s, .ok v))],
        c.predicate initState .anyone .anyone = false) ∧
     dispatch [Case.mk "reject" (fun _ _ _ => false) (fun s v _ => (s, .ok v))]
       initState .anyone .anyone = (initState, .error .mismatch)) ∧
    ((Case.mk "accept" (fun _ _ _ => true) (fun s _ _ => (s, .ok .anyone))).predicate
       initState .anyone .anyone = true ∧
     dispatch ([Case.mk "reject" (fun _ _ _ => false) (fun s v _ => (s, .ok v))] ++
         Case.mk "accept" (fun _ _ _ => true) (fun s _ _ => (s, .ok .anyone)) ::
         [Case.mk "later" (fun _ _ _ => true) (fun s _ _ => (s, .error .fatal))])
       initState .anyone .anyone =
       (Case.mk "accept" (fun _ _ _ => true) (fun s _ _ => (s, .ok .anyone))).action
         initState .anyone .anyone) :=
  ⟨⟨by intro c hc; simp at hc; subst hc; rfl,
    C6_dispatch_first_accepting_rule.1
      [Case.mk "reject" (fun _ _ _ => false) (fun s v _ => (s, .ok v))]
      initState .anyone .anyone
      (by intro c hc; simp at hc; subst hc; rfl)⟩,
   ⟨rfl,
    C6_dispatch_first_accepting_rule.2
      [Case.mk "reject" (fun _ _ _ => false) (fun s v _ => (s, .ok v))]
      [Case.mk "later" (fun _ _ _ => true) (fun s _ _ => (s, .error .fatal))]
      (Case.mk "accept" (fun _ _ _ => true) (fun s _ _ => (s, .ok .anyone)))
      initState .anyone .anyone
      (by intro c hc; simp at hc; subst hc; rfl) rfl⟩⟩

/-- C7: dispatching a value against a named capture binds the name to
the value and returns the value when the name is unbound in the visible
environment; re-binding to an equal value also succeeds (the write is
re-performed, a no-op); an unequal visible binding makes the capture
fail with `Mismatch` and leaves the environment untouched.  In
particular the two-capture pattern for `x` matches `[1, 1]` and does not
match `[1, 2]`. -/
theorem C7_name_capture_semantics :
    (∀ (fu : Nat) (st : MatchState) (v : Obj) (n : String),
       st.names.get? n = none →
       Matcher_visit (fu + 1) st v (.vname n) =
         ({ st with names := st.names.setItem n v }, .ok v)) ∧
    (∀ (fu : Nat) (st : MatchState) (v w : Obj) (n : String),
       st.names.get? n = some w → pyEq fu v w = .ok true →
       Matcher_visit (fu + 1) st v (.vname n) =
         ({ st with names := st.names.setItem n v }, .ok v)) ∧
    (∀ (fu : Nat) (st : MatchState) (v w : Obj) (n : String),
       st.names.get? n = some w → pyEq fu v w = .ok false →
       Matcher_visit (fu + 1) st v (.vname n) = (st, .error .mismatch)) ∧
    (Matcher_match 50 initState (.vlist [.vint 1, .vint 1]) (.pat [.vname "x", .vname "x"])).2 =
      .ok true ∧
    (Matcher_match 50 initState (.vlist [.vint 1, .vint 2]) (.pat [.vname "x", .vname "x"])).2 =
      .ok false := by
  refine ⟨fun fu st v n hg => ?_, fun fu st v w n hg he => ?_,
          fun fu st v w n hg he => ?_, rfl, rfl⟩
  · have step : Matcher_visit (fu + 1) st v (.vname n) =
        (match name_store fu st n v with
         | (st', Except.ok _) => (st', Except.ok v)
         | (st', Except.error e) => (st', Except.error e)) := rfl
    have hns : name_store fu st n v = ({ st with names := st.names.setItem n v }, .ok ()) := by
      unfold name_store
      rw [mapstack_contains_eq, hg]
      simp
    rw [step, hns]
  · have step : Matcher_visit (fu + 1) st v (.vname n) =
        (match name_store fu st n v with
         | (st', Except.ok _) => (st', Except.ok v)
         | (st', Except.error e) => (st', Except.error e)) := rfl
    have hns : name_store fu st n v = ({ st with names := st.names.setItem n v }, .ok ()) := by
      unfold name_store
      rw [mapstack_contains_eq, hg]
      simp [hg, he]
    rw [step, hns]
  · have step : Matcher_visit (fu + 1) st v (.vname n) =
        (match name_store fu st n v with
         | (st', Except.ok _) => (st', Except.ok v)
         | (st', Except.error e) => (st', Except.error e)) := rfl
    have hns : name_store fu st n v = (st, .error .mismatch) := by
      unfold name_store
      rw [mapstack_contains_eq, hg]
      simp [hg, he]
    rw [step, hns]

/-- C7, witnessed: in a fresh matcher, `x` is unbound and capturing the
value `7` under `x` binds it and succeeds. -/
theorem C7_name_capture_semantics_witness :
    initState.names.get? "x" = none ∧
    Matcher_visit 5 initState (.vint 7) (.vname "x") =
      ({ initState with names := initState.names.setItem "x" (.vint 7) }, .ok (.vint 7)) :=
  ⟨rfl, C7_name_capture_semantics.1 4 initState (.vint 7) "x" rfl⟩

/-- C8: against the empty sequence, a quantifier with infinite max over
any subpattern succeeds exactly when its min is 0 — zero consumed
repetitions satisfy `min = 0` and fail every positive min — whatever the
subpattern and the greediness flag.  In particular the claim's two
instances: `repeat(wildcard(), 0, inf)` matches `[]` and
`repeat(wildcard(), 1, inf)` does not. -/
theorem C8_quantifier_min_zero_on_empty (sub : Obj) (mn : Nat) (g : Bool) :
    (Matcher_match 10 initState (.vlist []) (.rep sub mn none g)).2 = .ok (decide (mn = 0)) := by
  rcases mn with _ | m <;> cases g <;> rfl

/-- C9: the greedy unbounded wildcard quantifier prefers maximal
consumption but gives positions back: followed by the literal `9` it
matches `[1, 1, 1, 9]`, the quantifier backing off to let the trailing
literal consume the final position. -/
theorem C9_greedy_quantifier_backtracks :
    (Matcher_match 60 initState (.vlist [.vint 1, .vint 1, .vint 1, .vint 9])
      (.pat [.rep .anyone 0 none true, .vint 9])).2 = .ok true := rfl

/-- C10: matching the non-sequence value `5` against any structural
pattern — a `Pattern` instance or a proper combinator mixin — does not
return a boolean: the pattern rule's predicate accepts the pair on the
pattern's type alone, and the action's `len(sequence)` then raises
`TypeError`, which propagates out of the top-level match call. -/
theorem C10_non_sequence_value_type_error (p : Obj) (h : isStructural p = true) :
    (Matcher_match 10 initState (.vint 5) p).2 = .error .typeError := by
  cases p <;> (try rfl) <;> simp [isStructural] at h

/-- C10, witnessed: the quantifier `Repeat(anyone)` is structural and
matching `5` against it propagates `TypeError`. -/
theorem C10_non_sequence_value_type_error_witness :
    isStructural (.rep .anyone 0 none true) = true ∧
    (Matcher_match 10 initState (.vint 5) (.rep .anyone 0 none true)).2 = .error .typeError :=
  ⟨rfl, C10_non_sequence_value_type_error (.rep .anyone 0 none true) rfl⟩
